import Mathlib

/-!
Shallow embedding of `entrypoint.py` from benileo/docker-nginx-certbot.

The source is a Python 2 program (it uses `dict.iteritems`).  The embedding
models:

* the file system as a partial map from path strings to file contents
  (`FS`); `os.path.exists` is `Option.isSome` of the lookup, so it is total
  and never raises (directories, when relevant, are ordinary entries);
* `os.path.join` as separator concatenation, for the normal case where the
  joined components are not absolute paths (no component starts with "/");
* the `certbot` argument dictionary (`self.args`) as an association list
  with Python-dict assignment semantics (replace the key if present,
  otherwise append).  Python 2 dict iteration order is unspecified; the
  model iterates in insertion order.  All claims about the command line are
  therefore stated about the *set* of flags, and the logged failure message
  is built from the same command list the invocation uses, exactly as in
  the source;
* the three threads of `main` (the main/startup thread, the `obtain_cert`
  worker, the `run_renewer` worker) as a small-step transition relation
  over an explicit orchestration state, with `threading.Lock` modelled as a
  boolean (acquire is enabled only when free; release is unconditional, as
  any thread may release a `Lock` in Python).  One CPython 2 semantic fact
  is load-bearing and modelled explicitly: `sys.exit` raises `SystemExit`,
  and `threading.Thread.__bootstrap_inner` swallows `SystemExit` raised in
  a non-main thread, terminating only that thread - the process keeps
  running.  `handle.wait()` in `Nginx.start` is modelled as blocking
  forever ("wait forever" in the source); an external crash of the spawned
  nginx process is outside the model.
-/

/-- A file system: path string to file content. `none` means the path does
not exist (a missing base directory simply yields `none` for every path
below it). -/
def FS := String → Option String

/-- `os.path.exists` over the file-system model: total, never raises. -/
def os_path_exists (fs : FS) (p : String) : Bool :=
  (fs p).isSome

/-- `LE_BASE_DIR` from entrypoint.py line 72. -/
def LE_BASE_DIR : String := "/etc/letsencrypt/live"

/-- `FULL_CHAIN` from entrypoint.py line 74. -/
def FULL_CHAIN : String := "fullchain.pem"

/-- `PRIVATE_KEY` from entrypoint.py line 76. -/
def PRIVATE_KEY : String := "privkey.pem"

/-- `CHAIN` from entrypoint.py line 78. -/
def CHAIN : String := "chain.pem"

/-- `live_dir_path(domain, path)` (entrypoint.py lines 225-226):
`os.path.join(LE_BASE_DIR, domain, path)`. -/
def live_dir_path (domain path : String) : String :=
  LE_BASE_DIR ++ "/" ++ domain ++ "/" ++ path

/-- `certs_exist(domain)` (entrypoint.py lines 214-222):
`return not os.path.exists(live_dir_path(domain, FULL_CHAIN))`.
Note the negation in the source: the function returns `True` when the
full-chain artifact is absent. -/
def certs_exist (fs : FS) (domain : String) : Bool :=
  !(os_path_exists fs (live_dir_path domain FULL_CHAIN))

/-- `PROXY_CONFIG` (entrypoint.py lines 60-70), the bootstrap variant. -/
def PROXY_CONFIG : String :=
  "\nserver \x7b\n    listen 443 ssl;\n    server_name _;\n    ssl_certificate /etc/nginx/ssl/nginx.crt;\n    ssl_certificate_key /etc/nginx/ssl/nginx.key;\n    location / \x7b\n        proxy_pass http://localhost;\n    \x7d\n\x7d\n"

/-- `Nginx.config_path` (entrypoint.py line 159): the path of the bootstrap
(proxy) configuration artifact. -/
def nginx_config_path : String := "/etc/nginx/conf.d/reverse_proxy.conf"

/-- `Nginx.write_proxy_config` (entrypoint.py lines 169-172): `open(path,
"w")` truncates, so the write fully replaces any prior content. -/
def write_proxy_config (fs : FS) : FS :=
  fun q => if q = nginx_config_path then some PROXY_CONFIG else fs q

/-- `os.remove`: fails (raises `OSError`, modelled as `none`) when the path
does not exist, otherwise removes the entry. -/
def os_remove (fs : FS) (p : String) : Option FS :=
  if os_path_exists fs p then some (fun q => if q = p then none else fs q)
  else none

/-- `Nginx.remove_proxy_config` (entrypoint.py lines 174-177):
`if os.path.exists(path): os.remove(path)` - the guard makes removal a
no-op when the artifact is absent. -/
def remove_proxy_config (fs : FS) : Option FS :=
  if os_path_exists fs nginx_config_path then os_remove fs nginx_config_path
  else some fs

/-- The externally supplied fragment directory checked by
`create_nginx_config_file` (entrypoint.py line 239). -/
def custom_dir_path : String := "/etc/nginx/conf.d/custom/"

/-- The include line written when the custom directory exists
(entrypoint.py line 241), else the empty string (line 238). -/
def custom_include (fs : FS) : String :=
  if os_path_exists fs custom_dir_path then
    "include /etc/nginx/conf.d/custom/*.conf;"
  else ""

/-- Segments of the `TLS_CONFIG` template (entrypoint.py lines 14-58) as
consumed by `TLS_CONFIG.format(domain, fullchain, privkey, chain,
custom_include)`: `\x7b\x7b`/`\x7d\x7d` render as literal braces and
`\x7b0\x7d`..`\x7b4\x7d` are the five substitution holes.  The
segmentation below cuts the literal text around each hole and around the
three certificate-path directives. -/
def TLS_SEG0 : String :=
  "\nserver \x7b\n    # Based on https://mozilla.github.io/server-side-tls/ssl-config-generator/\n    # for Nginx 1.11.3\n\n    listen 443 ssl http2;\n    listen [::]:443 ssl http2;\n    server_name "

/-- Template text between the domain hole and the `ssl_certificate`
directive. -/
def TLS_SEG1 : String :=
  ";\n\n    ssl_session_timeout 1d;\n    ssl_session_cache shared:SSL:50m;\n    ssl_session_tickets off;\n    "

/-- Template text after the chain-path hole, up to the include hole. -/
def TLS_SEG2 : String :=
  "\n\n    # intermediate configuration. tweak to your needs.\n    ssl_protocols TLSv1 TLSv1.1 TLSv1.2;\n    ssl_ciphers \x27ECDHE-ECDSA-CHACHA20-POLY1305:ECDHE-RSA-CHACHA20-POLY1305:ECDHE-ECDSA-AES128-GCM-SHA256:ECDHE-RSA-AES128-GCM-SHA256:ECDHE-ECDSA-AES256-GCM-SHA384:ECDHE-RSA-AES256-GCM-SHA384:DHE-RSA-AES128-GCM-SHA256:DHE-RSA-AES256-GCM-SHA384:ECDHE-ECDSA-AES128-SHA256:ECDHE-RSA-AES128-SHA256:ECDHE-ECDSA-AES128-SHA:ECDHE-RSA-AES256-SHA384:ECDHE-RSA-AES128-SHA:ECDHE-ECDSA-AES256-SHA384:ECDHE-ECDSA-AES256-SHA:ECDHE-RSA-AES256-SHA:DHE-RSA-AES128-SHA256:DHE-RSA-AES128-SHA:DHE-RSA-AES256-SHA256:DHE-RSA-AES256-SHA:ECDHE-ECDSA-DES-CBC3-SHA:ECDHE-RSA-DES-CBC3-SHA:EDH-RSA-DES-CBC3-SHA:AES128-GCM-SHA256:AES256-GCM-SHA384:AES128-SHA256:AES256-SHA256:AES128-SHA:AES256-SHA:DES-CBC3-SHA:!DSS\x27;\n    ssl_prefer_server_ciphers on;\n\n    # fetch OCSP records from URL in ssl_certificate and cache them\n    ssl_stapling on;\n    ssl_stapling_verify on;\n\n    # Diffie-Hellman parameter for DHE ciphersuites, recommended 2048 bits\n    ssl_dhparam /etc/ssl/certs/dhparam.pem;\n\n    # HSTS (ngx_http_headers_module is required) (15768000 seconds = 6 months)\n    add_header Strict-Transport-Security max-age=15768000;\n\n    # A resolver must be set for resolving OCSP responder hostname\n    resolver 8.8.4.4 8.8.8.8;\n\n    # If there is a conf file, these directives will\n    # be added into the server block. If there is\n    # no include directive here then you need to\n    # create a conf file mounted in a volume in\n    # /etc/nginx/conf.d/custom/\n    #\n    # Note: adding duplicates to the directives defined\n    # above will cause errors.\n    "

/-- Template text after the include hole (closing brace). -/
def TLS_SEG3 : String := "\n\x7d\n"

/-- `TLS_CONFIG.format(domain, fullchain, privkey, chain, include)`
(entrypoint.py lines 14-58 spliced at lines 245-250). -/
def tls_config (domain fc pk ch inc : String) : String :=
  TLS_SEG0 ++ domain ++ TLS_SEG1 ++
  "ssl_certificate " ++ fc ++ ";" ++ "\n    " ++
  "ssl_certificate_key " ++ pk ++ ";" ++ "\n    " ++
  "ssl_trusted_certificate " ++ ch ++ ";" ++
  TLS_SEG2 ++ inc ++ TLS_SEG3

/-- The path `fp = os.path.join("/etc/nginx/conf.d", domain + ".conf")`
(entrypoint.py line 243). -/
def nginx_conf_path (domain : String) : String :=
  "/etc/nginx/conf.d" ++ "/" ++ domain ++ ".conf"

/-- `create_nginx_config_file(domain)` (entrypoint.py lines 229-252): reads
the custom-fragment directory, then writes the formatted served
configuration at `fp`. -/
def create_nginx_config_file (fs : FS) (domain : String) : FS :=
  fun q =>
    if q = nginx_conf_path domain then
      some (tls_config domain
        (live_dir_path domain FULL_CHAIN)
        (live_dir_path domain PRIVATE_KEY)
        (live_dir_path domain CHAIN)
        (custom_include fs))
    else fs q

/-- Python truthiness of an optional environment value: `None` and the
empty string are falsy, every other string is truthy. -/
def py_truthy (v : Option String) : Bool :=
  match v with
  | none => false
  | some s => !s.isEmpty

/-- The `Config` object (entrypoint.py lines 83-103) after
`parse_environment` has populated it: `domain`/`email` hold the environment
strings; `server`, `staging` and `debug` hold the raw environment value
when the variable is set (`os.getenv(key, default)`), `none` when unset
(the defaults `None`/`False`/`False` are all falsy). -/
structure Config where
  domain : String
  email : String
  server : Option String
  staging : Option String
  debug : Option String
deriving DecidableEq, Repr

/-- `parse_environment()` (entrypoint.py lines 260-284).
`fail_with_error_message` (lines 255-257) logs and calls `sys.exit(1)`;
in the main thread this terminates the process with status 1, so the
failure is modelled as `Except.error` carrying the logged message. -/
def parse_environment (env : String → Option String) : Except String Config :=
  if py_truthy (env "DOMAIN") = false then
    .error "DOMAIN must be passed as an env variable"
  else if py_truthy (env "EMAIL") = false then
    .error "EMAIL must be passed as an env variable"
  else
    .ok { domain := (env "DOMAIN").getD "", email := (env "EMAIL").getD "",
          server := env "SERVER", staging := env "STAGING",
          debug := env "DEBUG" }

/-- `Certbot.add_arg` (entrypoint.py lines 135-136): Python dict
assignment - replace the value if the key is present, else append. -/
def add_arg (args : List (String × Option String)) (k : String)
    (v : Option String) : List (String × Option String) :=
  if args.any (fun q => q.1 == k) then
    args.map (fun q => if q.1 == k then (k, v) else q)
  else args ++ [(k, v)]

/-- `Certbot.__init__` (entrypoint.py lines 109-133): the `self.args`
dictionary after construction, in insertion order. -/
def certbot_args (c : Config) : List (String × Option String) :=
  let a := add_arg [] "--domain" (some c.domain)
  let a := add_arg a "--email" (some c.email)
  let a := add_arg a "--standalone" none
  let a := add_arg a "--non-interactive" none
  let a := add_arg a "--agree-tos" none
  let a := add_arg a "--must-staple" none
  let a := if py_truthy c.staging then add_arg a "--staging" none else a
  let a := if py_truthy c.debug then add_arg a "-vvv" (some "--text") else a
  let a := if py_truthy c.server then add_arg a "--server" c.server else a
  add_arg a "--preferred-challenges" (some "http-01")

/-- `Certbot.run` (entrypoint.py lines 143-146): flatten the args dict onto
`self.cmd = ["certbot", "certonly"]`, appending the value after its key
when the value is not `None`. -/
def certbot_cmd (c : Config) : List String :=
  ["certbot", "certonly"] ++
    (certbot_args c).flatMap (fun q =>
      match q.2 with
      | none => [q.1]
      | some v => [q.1, v])

/-- The message passed to `fail_with_error_message` when
`subprocess.check_call` raises (entrypoint.py lines 151-154):
`"Command failed: " + " ".join(self.cmd)`. -/
def certbot_fail_message (c : Config) : String :=
  "Command failed: " ++ String.intercalate " " (certbot_cmd c)

/-- The renewal invocation built each cycle by `run_renewer`
(entrypoint.py lines 314-316): `["certbot", "renew", "--pre-hook",
"nginx -s stop"]`, plus `--force-renewal` when `config.debug` is truthy. -/
def renew_cmd (c : Config) : List String :=
  ["certbot", "renew", "--pre-hook", "nginx -s stop"] ++
    (if py_truthy c.debug then ["--force-renewal"] else [])

/-- `time.sleep(3600)` (entrypoint.py line 324): the fixed renewal loop
interval, in seconds. -/
def RENEW_SLEEP_SECONDS : Nat := 3600


/-!
The orchestration transition system: `main` (entrypoint.py lines 327-354),
`obtain_cert` (lines 287-301) and `run_renewer` (lines 304-324) as three
threads of control over shared state.  Each program counter names the
*next* statement the thread will execute.
-/

/-- Program counter of the main thread (`main`, entrypoint.py 327-354).
`acquireStartLock`/`acquireDoneLock` are lines 328-329 (the `atexit`
registration on line 331 has no observable effect inside the model and is
folded into the parse step); `parseEnv` is line 332; `spawnRenewer` line
335; `checkCerts` line 342; the `writeBootstrap`/`spawnObtainer`/
`startNginxA` sequence is lines 343-345; `logAndReleaseDone` is lines
347-352, `writeServedB` line 353 and `startNginxB` line 354; `blocked` is
`handle.wait()` inside `Nginx.start` (line 167), which never returns in
normal operation. -/
inductive MainPc
  | acquireStartLock
  | acquireDoneLock
  | parseEnv
  | spawnRenewer
  | checkCerts
  | writeBootstrap
  | spawnObtainer
  | startNginxA
  | logAndReleaseDone
  | writeServedB
  | startNginxB
  | blocked
deriving DecidableEq, Repr

/-- Program counter of the `run_renewer` thread (entrypoint.py 304-324):
acquire `Certbot.done_lock` (line 310), acquire `Nginx.start_lock`
(line 311), then the infinite invoke/sleep loop (lines 312-324). -/
inductive RenPc
  | acquireDoneLock
  | acquireStartLock
  | invokeRenew
  | sleeping
deriving DecidableEq, Repr

/-- Program counter of the `obtain_cert` thread (entrypoint.py 287-301).
`runIssuer` is `certbot.run()` (line 296); on a non-zero exit
`fail_with_error_message` raises `SystemExit`, which CPython 2's
`Thread.__bootstrap_inner` swallows, so only this thread stops: `failed`.
On success the thread removes the bootstrap config (line 297), writes the
served config (line 298), reloads nginx (line 299), releases
`Nginx.start_lock` (line 300) and `Certbot.done_lock` (line 301). -/
inductive ObPc
  | acquireStartLock
  | runIssuer
  | removeBootstrap
  | writeServed
  | reloadNginx
  | releaseStartLock
  | releaseDoneLock
  | finished
  | failed
deriving DecidableEq, Repr

/-- Shared orchestration state.  `startLock`/`doneLock` are the two
`threading.Lock` objects (`true` = held).  `nginxStarted` records that
`Process.start(NGINX_CMD)` has run (the spec's ServerReady gate opens at
the `start_lock.release()` immediately after it); `issuanceOpened` records
that `Certbot.done_lock` has been released at least once (the spec's
IssuanceSettled gate).  `bootstrapOn`/`servedOn` record presence of the
two nginx configuration artifacts (the container image ships with
neither).  `exited` is the process exit status (`sys.exit` from the main
thread); every transition requires `exited = none`. -/
structure OState where
  mainPc : MainPc
  renewer : Option RenPc
  obtainer : Option ObPc
  startLock : Bool
  doneLock : Bool
  nginxStarted : Bool
  issuanceOpened : Bool
  bootstrapOn : Bool
  servedOn : Bool
  renewCount : Nat
  sleptSeconds : Nat
  errorLog : List String
  exited : Option Nat
deriving DecidableEq, Repr

/-- The environment and external-process outcomes a run is exposed to:
the process environment, the initial certificate file system (read by
`certs_exist`), the exit status of the one-shot `certbot certonly`, and
the exit status of the n-th `certbot renew`. -/
structure Scenario where
  env : String → Option String
  fs0 : FS
  issueOk : Bool
  renewOk : Nat → Bool

/-- Log record for a failed `certbot renew` cycle (entrypoint.py line 320
logs the `CalledProcessError`; the model keeps an abstract marker). -/
def RENEW_FAIL_LOG : String := "certbot renew exited non-zero"

/-- One interleaved step of the three threads. -/
inductive Step (sc : Scenario) : OState → OState → Prop
  /-- main line 328: `Nginx.start_lock.acquire()`. -/
  | mAcquireStart (s : OState) (h1 : s.exited = none)
      (h2 : s.mainPc = .acquireStartLock) (h3 : s.startLock = false) :
      Step sc s { s with startLock := true, mainPc := .acquireDoneLock }
  /-- main line 329: `Certbot.done_lock.acquire()`. -/
  | mAcquireDone (s : OState) (h1 : s.exited = none)
      (h2 : s.mainPc = .acquireDoneLock) (h3 : s.doneLock = false) :
      Step sc s { s with doneLock := true, mainPc := .parseEnv }
  /-- main line 332 when both required variables are present. -/
  | mParseOk (s : OState) (c : Config) (h1 : s.exited = none)
      (h2 : s.mainPc = .parseEnv)
      (h3 : parse_environment sc.env = .ok c) :
      Step sc s { s with mainPc := .spawnRenewer }
  /-- main line 332 when a required variable is missing:
  `fail_with_error_message` logs and `sys.exit(1)` ends the process. -/
  | mParseFail (s : OState) (msg : String) (h1 : s.exited = none)
      (h2 : s.mainPc = .parseEnv)
      (h3 : parse_environment sc.env = .error msg) :
      Step sc s { s with errorLog := s.errorLog ++ [msg], exited := some 1 }
  /-- main line 335: `threading.Thread(target=run_renewer, ...).start()`. -/
  | mSpawnRenewer (s : OState) (h1 : s.exited = none)
      (h2 : s.mainPc = .spawnRenewer) :
      Step sc s { s with renewer := some .acquireDoneLock,
                         mainPc := .checkCerts }
  /-- main line 342, `certs_exist` true (no certificate): enter case 1. -/
  | mCheckNoCert (s : OState) (c : Config) (h1 : s.exited = none)
      (h2 : s.mainPc = .checkCerts)
      (h3 : parse_environment sc.env = .ok c)
      (h4 : certs_exist sc.fs0 c.domain = true) :
      Step sc s { s with mainPc := .writeBootstrap }
  /-- main line 342, `certs_exist` false (certificate present): case 2. -/
  | mCheckHaveCert (s : OState) (c : Config) (h1 : s.exited = none)
      (h2 : s.mainPc = .checkCerts)
      (h3 : parse_environment sc.env = .ok c)
      (h4 : certs_exist sc.fs0 c.domain = false) :
      Step sc s { s with mainPc := .logAndReleaseDone }
  /-- main line 343: `Nginx.write_proxy_config()`. -/
  | mWriteBootstrap (s : OState) (h1 : s.exited = none)
      (h2 : s.mainPc = .writeBootstrap) :
      Step sc s { s with bootstrapOn := true, mainPc := .spawnObtainer }
  /-- main line 344: `threading.Thread(target=obtain_cert, ...).start()`. -/
  | mSpawnObtainer (s : OState) (h1 : s.exited = none)
      (h2 : s.mainPc = .spawnObtainer) :
      Step sc s { s with obtainer := some .acquireStartLock,
                         mainPc := .startNginxA }
  /-- main line 345: `Nginx.start()` spawns nginx, releases
  `start_lock` and blocks in `handle.wait()` (lines 163-167). -/
  | mStartNginxA (s : OState) (h1 : s.exited = none)
      (h2 : s.mainPc = .startNginxA) :
      Step sc s { s with nginxStarted := true, startLock := false,
                         mainPc := .blocked }
  /-- main lines 347-352: log and `Certbot.done_lock.release()`. -/
  | mLogReleaseDone (s : OState) (h1 : s.exited = none)
      (h2 : s.mainPc = .logAndReleaseDone) :
      Step sc s { s with doneLock := false, issuanceOpened := true,
                         mainPc := .writeServedB }
  /-- main line 353: `create_nginx_config_file(domain)`. -/
  | mWriteServedB (s : OState) (h1 : s.exited = none)
      (h2 : s.mainPc = .writeServedB) :
      Step sc s { s with servedOn := true, mainPc := .startNginxB }
  /-- main line 354: `Nginx.start()` as in `mStartNginxA`. -/
  | mStartNginxB (s : OState) (h1 : s.exited = none)
      (h2 : s.mainPc = .startNginxB) :
      Step sc s { s with nginxStarted := true, startLock := false,
                         mainPc := .blocked }
  /-- renewer line 310: `Certbot.done_lock.acquire()`. -/
  | rAcquireDone (s : OState) (h1 : s.exited = none)
      (h2 : s.renewer = some .acquireDoneLock) (h3 : s.doneLock = false) :
      Step sc s { s with doneLock := true,
                         renewer := some .acquireStartLock }
  /-- renewer line 311: `Nginx.start_lock.acquire()`. -/
  | rAcquireStart (s : OState) (h1 : s.exited = none)
      (h2 : s.renewer = some .acquireStartLock) (h3 : s.startLock = false) :
      Step sc s { s with startLock := true, renewer := some .invokeRenew }
  /-- renewer lines 314-323, `certbot renew` exits zero. -/
  | rInvokeOk (s : OState) (h1 : s.exited = none)
      (h2 : s.renewer = some .invokeRenew)
      (h3 : sc.renewOk s.renewCount = true) :
      Step sc s { s with renewCount := s.renewCount + 1,
                         renewer := some .sleeping }
  /-- renewer lines 314-320, `certbot renew` exits non-zero: the
  `CalledProcessError` is caught and logged, the loop continues. -/
  | rInvokeFail (s : OState) (h1 : s.exited = none)
      (h2 : s.renewer = some .invokeRenew)
      (h3 : sc.renewOk s.renewCount = false) :
      Step sc s { s with renewCount := s.renewCount + 1,
                         errorLog := s.errorLog ++ [RENEW_FAIL_LOG],
                         renewer := some .sleeping }
  /-- renewer line 324: `time.sleep(3600)`, then back to the loop head. -/
  | rSleep (s : OState) (h1 : s.exited = none)
      (h2 : s.renewer = some .sleeping) :
      Step sc s { s with sleptSeconds := s.sleptSeconds + RENEW_SLEEP_SECONDS,
                         renewer := some .invokeRenew }
  /-- obtainer line 295: `Nginx.start_lock.acquire()`. -/
  | oAcquireStart (s : OState) (h1 : s.exited = none)
      (h2 : s.obtainer = some .acquireStartLock) (h3 : s.startLock = false) :
      Step sc s { s with startLock := true, obtainer := some .runIssuer }
  /-- obtainer line 296, `certbot certonly` exits zero. -/
  | oRunIssuerOk (s : OState) (h1 : s.exited = none)
      (h2 : s.obtainer = some .runIssuer) (h3 : sc.issueOk = true) :
      Step sc s { s with obtainer := some .removeBootstrap }
  /-- obtainer line 296, `certbot certonly` exits non-zero:
  `fail_with_error_message` logs `"Command failed: ..."` and raises
  `SystemExit`, which ends only this worker thread (CPython 2 threading
  swallows `SystemExit` in non-main threads); the process keeps running
  and no lock is released. -/
  | oRunIssuerFail (s : OState) (c : Config) (h1 : s.exited = none)
      (h2 : s.obtainer = some .runIssuer) (h3 : sc.issueOk = false)
      (h4 : parse_environment sc.env = .ok c) :
      Step sc s { s with errorLog := s.errorLog ++ [certbot_fail_message c],
                         obtainer := some .failed }
  /-- obtainer line 297: `Nginx.remove_proxy_config()`. -/
  | oRemoveBootstrap (s : OState) (h1 : s.exited = none)
      (h2 : s.obtainer = some .removeBootstrap) :
      Step sc s { s with bootstrapOn := false,
                         obtainer := some .writeServed }
  /-- obtainer line 298: `create_nginx_config_file(certbot.domain)`. -/
  | oWriteServed (s : OState) (h1 : s.exited = none)
      (h2 : s.obtainer = some .writeServed) :
      Step sc s { s with servedOn := true, obtainer := some .reloadNginx }
  /-- obtainer line 299: `Nginx.reload()` (SIGHUP to the handle). -/
  | oReloadNginx (s : OState) (h1 : s.exited = none)
      (h2 : s.obtainer = some .reloadNginx) :
      Step sc s { s with obtainer := some .releaseStartLock }
  /-- obtainer line 300: `Nginx.start_lock.release()`. -/
  | oReleaseStart (s : OState) (h1 : s.exited = none)
      (h2 : s.obtainer = some .releaseStartLock) :
      Step sc s { s with startLock := false,
                         obtainer := some .releaseDoneLock }
  /-- obtainer line 301: `Certbot.done_lock.release()`. -/
  | oReleaseDone (s : OState) (h1 : s.exited = none)
      (h2 : s.obtainer = some .releaseDoneLock) :
      Step sc s { s with doneLock := false, issuanceOpened := true,
                         obtainer := some .finished }

/-- Process start state: both locks free (they are acquired on lines
328-329), no worker threads, fresh container (neither configuration
artifact present), nothing logged, process running. -/
def initState : OState :=
  { mainPc := .acquireStartLock, renewer := none, obtainer := none,
    startLock := false, doneLock := false, nginxStarted := false,
    issuanceOpened := false, bootstrapOn := false, servedOn := false,
    renewCount := 0, sleptSeconds := 0, errorLog := [], exited := none }

/-- States reachable from process start under scenario `sc`, under any
interleaving of the three threads. -/
def Reachable (sc : Scenario) (s : OState) : Prop :=
  Relation.ReflTransGen (Step sc) initState s

/-- Invariant induction principle over reachable states. -/
theorem reachable_invariant {sc : Scenario} {P : OState → Prop}
    (h0 : P initState)
    (hstep : ∀ s t, P s → Step sc s t → P t) :
    ∀ s, Reachable sc s → P s := by
  intro s hs
  induction hs with
  | refl => exact h0
  | tail _ hstep1 ih => exact hstep _ _ ih hstep1

/-!
Inductive invariants.  `GInv` relates the renewer's progress to the two
gates of the spec: ServerReady (nginx spawned, `start_lock` released by
`Nginx.start`) and IssuanceSettled (`done_lock` released).  `MXInv`
relates presence of the two configuration artifacts to thread progress.
-/

/-- Gate invariant, closed under `Step`. -/
structure GInv (s : OState) : Prop where
  doneFree : s.doneLock = false →
    s.mainPc = .acquireStartLock ∨ s.mainPc = .acquireDoneLock ∨
      s.issuanceOpened = true
  startFree : s.startLock = false →
    s.mainPc = .acquireStartLock ∨ s.nginxStarted = true
  obPastAcquire : ∀ o, s.obtainer = some o → o ≠ .acquireStartLock →
    s.nginxStarted = true
  obMainPast : s.obtainer ≠ none → s.mainPc ≠ .acquireStartLock
  renMainPast : s.renewer ≠ none →
    s.mainPc ≠ .acquireStartLock ∧ s.mainPc ≠ .acquireDoneLock ∧
      s.mainPc ≠ .parseEnv ∧ s.mainPc ≠ .spawnRenewer
  renPastDone : s.renewer = some .acquireStartLock → s.issuanceOpened = true
  renInLoop : s.renewer = some .invokeRenew ∨ s.renewer = some .sleeping →
    s.issuanceOpened = true ∧ s.nginxStarted = true
  renAttempted : 1 ≤ s.renewCount →
    s.issuanceOpened = true ∧ s.nginxStarted = true

theorem gInv_init : GInv initState := by
  constructor <;> intro h <;> simp_all [initState]


set_option maxHeartbeats 2000000 in
theorem gInv_step {sc : Scenario} {s t : OState}
    (hs : GInv s) (h : Step sc s t) : GInv t := by
  obtain ⟨g1, g2, g3, g4, g5, g6, g7, g8⟩ := hs
  cases h <;> constructor <;> intros <;> simp_all

theorem gInv_reachable {sc : Scenario} {s : OState}
    (h : Reachable sc s) : GInv s :=
  reachable_invariant gInv_init (fun _ _ hp hst => gInv_step hp hst) s h

/-- The obtainer program counters past `remove_proxy_config` (line 297). -/
def obtainerLate (o : Option ObPc) : Bool :=
  match o with
  | some .writeServed => true
  | some .reloadNginx => true
  | some .releaseStartLock => true
  | some .releaseDoneLock => true
  | some .finished => true
  | _ => false

/-- Mutual-exclusion invariant for the two configuration artifacts. -/
structure MXInv (s : OState) : Prop where
  servedNoBootstrap : s.servedOn = true → s.bootstrapOn = false
  obPastRemove : obtainerLate s.obtainer = true → s.bootstrapOn = false
  caseTwoClean : (s.mainPc = .logAndReleaseDone ∨ s.mainPc = .writeServedB ∨
      s.mainPc = .startNginxB) →
    s.bootstrapOn = false ∧ s.obtainer.isSome = false
  bootstrapWhere : s.bootstrapOn = true → s.mainPc = .spawnObtainer ∨
    s.mainPc = .startNginxA ∨ s.mainPc = .blocked
  obWhere : s.obtainer.isSome = true → s.mainPc = .startNginxA ∨
    s.mainPc = .blocked
  servedWhere : s.servedOn = true → s.mainPc = .startNginxA ∨
    s.mainPc = .blocked ∨ s.mainPc = .startNginxB

theorem mxInv_init : MXInv initState := by
  constructor <;> intro h <;> simp_all [initState]

set_option maxHeartbeats 2000000 in
theorem mxInv_step {sc : Scenario} {s t : OState}
    (hs : MXInv s) (h : Step sc s t) : MXInv t := by
  obtain ⟨m1, m2, m3, m4, m5, m6⟩ := hs
  cases h <;> constructor <;> intros <;> simp_all [obtainerLate]

theorem mxInv_reachable {sc : Scenario} {s : OState}
    (h : Reachable sc s) : MXInv s :=
  reachable_invariant mxInv_init (fun _ _ hp hst => mxInv_step hp hst) s h

/-- When the environment parses successfully (both `DOMAIN` and `EMAIL`
truthy), the process never sets an exit status: the only `sys.exit` on the
main thread is the one in `parse_environment`'s failure path, and the
`sys.exit` inside the failed-issuance worker is swallowed by the thread
machinery. -/
theorem exited_none_of_parse_ok {sc : Scenario} (c : Config)
    (hc : parse_environment sc.env = .ok c) :
    ∀ s, Reachable sc s → s.exited = none := by
  apply reachable_invariant
  · rfl
  · intro s t hp hst
    cases hst <;> simp_all

/-- When the environment is rejected, the main thread never gets past
`parse_environment`: no renewal thread, no obtainer thread, no nginx
process, no renewal attempt, and neither configuration artifact is
written. -/
theorem no_background_of_parse_error {sc : Scenario} (msg : String)
    (hc : parse_environment sc.env = .error msg) :
    ∀ s, Reachable sc s →
      (s.mainPc = .acquireStartLock ∨ s.mainPc = .acquireDoneLock ∨
        s.mainPc = .parseEnv) ∧
      s.renewer = none ∧ s.obtainer = none ∧ s.nginxStarted = false ∧
      s.renewCount = 0 ∧ s.bootstrapOn = false ∧ s.servedOn = false := by
  apply reachable_invariant
  · simp [initState]
  · intro s t hp hst
    cases hst <;> simp_all

/-- `parse_environment` rejects exactly when `DOMAIN` or `EMAIL` is unset
or empty. -/
theorem parse_environment_error_iff (env : String → Option String) :
    (∃ msg, parse_environment env = .error msg) ↔
      py_truthy (env "DOMAIN") = false ∨ py_truthy (env "EMAIL") = false := by
  unfold parse_environment
  by_cases h1 : py_truthy (env "DOMAIN") = false <;>
    by_cases h2 : py_truthy (env "EMAIL") = false <;>
      simp_all

/-!
Concrete environments, file systems and scenarios used by witnesses,
counterexamples and constructed executions.
-/

/-- `DOMAIN=example.com EMAIL=a@example.com`, nothing else set. -/
def env_ok : String → Option String := fun k =>
  if k = "DOMAIN" then some "example.com"
  else if k = "EMAIL" then some "a@example.com"
  else none

/-- The configuration `parse_environment` produces from `env_ok`. -/
def cfg_ok : Config :=
  { domain := "example.com", email := "a@example.com", server := none,
    staging := none, debug := none }

theorem parse_env_ok : parse_environment env_ok = .ok cfg_ok := by rfl

/-- An empty file system: no certificate artifact. -/
def fs_empty : FS := fun _ => none

/-- A file system holding exactly the full-chain artifact for
`example.com`. -/
def fs_cert : FS := fun p =>
  if p = "/etc/letsencrypt/live/example.com/fullchain.pem" then some "pem"
  else none

/-- Scenario: valid environment, no certificate, the one-shot issuance
fails. -/
def sc_issue_fail : Scenario :=
  { env := env_ok, fs0 := fs_empty, issueOk := false,
    renewOk := fun _ => false }

/-- Scenario: valid environment, certificate already present, every
renewal attempt fails. -/
def sc_renew_fail : Scenario :=
  { env := env_ok, fs0 := fs_cert, issueOk := true,
    renewOk := fun _ => false }

/-- Scenario: no environment variables at all. -/
def sc_noenv : Scenario :=
  { env := fun _ => none, fs0 := fs_empty, issueOk := true,
    renewOk := fun _ => true }

/-- Following the spec's words (§4.1 Contract): `exists(domain)` checks
for the full-chain artifact under the fixed base path for `domain`. -/
def spec_certificate_state_exists (fs : FS) (domain : String) : Bool :=
  os_path_exists fs (live_dir_path domain FULL_CHAIN)

/-- C1 counterexample: with the full-chain artifact for `example.com`
present, `certs_exist` returns `false`, refuting the claim that it
"returns true exactly when the full-chain artifact ... exists". -/
theorem certs_exist_claim_counterexample :
    os_path_exists fs_cert (live_dir_path "example.com" FULL_CHAIN) = true ∧
    certs_exist fs_cert "example.com" = false := by
  constructor <;> decide

/-- C1 (amended): `certs_exist` is the *negation* of the spec's
`CertificateState.exists`: it returns true exactly when the full-chain
artifact is absent, returns false when it is present, is a total function
of the file-system map (so a missing base directory simply reads as
absence and nothing is raised), and reflects live file-system state: as
soon as the artifact is created it flips to false, and when the artifact
is removed it flips back to true. -/
theorem certs_exist_amended :
    ∀ (fs : FS) (d : String),
      certs_exist fs d = !(spec_certificate_state_exists fs d) ∧
      (certs_exist fs d = true ↔ fs (live_dir_path d FULL_CHAIN) = none) ∧
      (certs_exist fs d = false ↔
        ∃ content, fs (live_dir_path d FULL_CHAIN) = some content) ∧
      (∀ content,
        certs_exist
          (fun q => if q = live_dir_path d FULL_CHAIN then some content
            else fs q) d = false) ∧
      certs_exist
        (fun q => if q = live_dir_path d FULL_CHAIN then none else fs q)
        d = true := by
  intro fs d
  refine ⟨rfl, ?_, ?_, ?_, ?_⟩ <;>
    simp [certs_exist, os_path_exists, spec_certificate_state_exists,
      Option.isSome]
  · cases h : fs (live_dir_path d FULL_CHAIN) <;> simp
  · cases h : fs (live_dir_path d FULL_CHAIN) <;> simp

/-- C7: writing the bootstrap configuration fully overwrites the artifact
(its content is `PROXY_CONFIG` regardless of prior state, and repeated
writes are idempotent, so no directives accumulate), and
`remove_proxy_config` never errors: it yields a file system without the
artifact, leaves every other path untouched, and removing again (the
artifact now absent) is a no-op rather than an error. -/
theorem proxy_config_write_remove_idempotent :
    ∀ fs : FS,
      (write_proxy_config fs) nginx_config_path = some PROXY_CONFIG ∧
      write_proxy_config (write_proxy_config fs) = write_proxy_config fs ∧
      (∃ fs', remove_proxy_config fs = some fs' ∧
        fs' nginx_config_path = none ∧
        remove_proxy_config fs' = some fs' ∧
        ∀ q, q ≠ nginx_config_path → fs' q = fs q) := by
  intro fs
  refine ⟨by simp [write_proxy_config], ?_, ?_⟩
  · funext q
    by_cases h : q = nginx_config_path <;> simp [write_proxy_config, h]
  · by_cases h : os_path_exists fs nginx_config_path
    · refine ⟨fun q => if q = nginx_config_path then none else fs q,
        ?_, by simp, ?_, ?_⟩
      · simp [remove_proxy_config, os_remove, h]
      · simp [remove_proxy_config, os_path_exists]
      · intro q hq
        simp [hq]
    · have hnone : fs nginx_config_path = none := by
        simpa [os_path_exists] using h
      exact ⟨fs, by simp [remove_proxy_config, h], hnone,
        by simp [remove_proxy_config, h], fun q _ => rfl⟩

/-- C5 counterexample: for domain `example.com` the two variants are
written at *different* fixed paths - the bootstrap write does not touch
the served path and the served write does not touch the bootstrap path -
refuting the claim of a single shared configuration file path. -/
theorem config_paths_counterexample :
    nginx_conf_path "example.com" ≠ nginx_config_path ∧
    (write_proxy_config fs_empty) (nginx_conf_path "example.com") = none ∧
    (create_nginx_config_file fs_empty "example.com") nginx_config_path =
      none := by
  refine ⟨by decide, ?_, ?_⟩ <;>
    simp [write_proxy_config, create_nginx_config_file, fs_empty,
      nginx_conf_path, nginx_config_path]

/-- C5 (amended): the bootstrap variant lives at the fixed path
`/etc/nginx/conf.d/reverse_proxy.conf` and the served variant at the
per-domain path `/etc/nginx/conf.d/<domain>.conf`; these are distinct for
every domain other than the literal `"reverse_proxy"`.  The mutual
exclusion half of the claim does hold: starting from a fresh container
(neither artifact present), at every reachable point of every
interleaving at most one of the two variants' artifacts is present. -/
theorem config_variant_exclusion_amended :
    (∀ d : String, d ≠ "reverse_proxy" →
      nginx_conf_path d ≠ nginx_config_path) ∧
    (∀ (sc : Scenario) (s : OState), Reachable sc s →
      ¬(s.bootstrapOn = true ∧ s.servedOn = true)) := by
  constructor
  · intro d hd h
    apply hd
    have h2 : nginx_conf_path d =
        "/etc/nginx/conf.d" ++ "/" ++ d ++ ".conf" := rfl
    have h3 : nginx_config_path =
        "/etc/nginx/conf.d" ++ "/" ++ "reverse_proxy" ++ ".conf" := rfl
    rw [h2, h3] at h
    have hdata := congrArg String.data h
    simp only [String.data_append] at hdata
    have h4 := List.append_cancel_left (List.append_cancel_right hdata)
    cases d
    simp_all
  · intro sc s hr ⟨hb, hs⟩
    have := (mxInv_reachable hr).servedNoBootstrap hs
    simp_all

/-- Witness for the C5 amended theorem at concrete inputs. -/
theorem config_variant_exclusion_amended_witness :
    nginx_conf_path "example.com" ≠ nginx_config_path ∧
    ¬(initState.bootstrapOn = true ∧ initState.servedOn = true) :=
  ⟨config_variant_exclusion_amended.1 "example.com" (by decide),
   config_variant_exclusion_amended.2 sc_noenv initState
     Relation.ReflTransGen.refl⟩

/-- C3: under every interleaving and every scenario, the renewal loop has
issued a renewal attempt only if both the IssuanceSettled gate
(`done_lock` released) and the ServerReady gate (nginx spawned and
`start_lock` released by `Nginx.start`) have been opened; moreover the
renewer passes IssuanceSettled first (when it is at its
`start_lock.acquire` it already saw issuance settle) and holds both
before entering its periodic loop. -/
theorem renewal_gated_by_issuance_and_server :
    ∀ (sc : Scenario) (s : OState), Reachable sc s →
      (1 ≤ s.renewCount →
        s.issuanceOpened = true ∧ s.nginxStarted = true) ∧
      (s.renewer = some RenPc.acquireStartLock →
        s.issuanceOpened = true) ∧
      ((s.renewer = some RenPc.invokeRenew ∨
          s.renewer = some RenPc.sleeping) →
        s.issuanceOpened = true ∧ s.nginxStarted = true) := by
  intro sc s h
  have g := gInv_reachable h
  exact ⟨g.renAttempted, g.renPastDone, g.renInLoop⟩

/-- The state reached, in scenario `sc_renew_fail`, once the main thread
has served the existing certificate and started nginx and the renewer has
passed both gates: the head of the renewal loop. -/
def loop_state_0 : OState :=
  { mainPc := .blocked, renewer := some RenPc.invokeRenew, obtainer := none,
    startLock := true, doneLock := true, nginxStarted := true,
    issuanceOpened := true, bootstrapOn := false, servedOn := true,
    renewCount := 0, sleptSeconds := 0, errorLog := [], exited := none }

theorem reach_loop_state_0 : Reachable sc_renew_fail loop_state_0 := by
  have h0 : Reachable sc_renew_fail initState := Relation.ReflTransGen.refl
  have h1 := Relation.ReflTransGen.tail h0
    (Step.mAcquireStart initState rfl rfl rfl)
  have h2 := Relation.ReflTransGen.tail h1
    (Step.mAcquireDone _ rfl rfl rfl)
  have h3 := Relation.ReflTransGen.tail h2
    (Step.mParseOk _ cfg_ok rfl rfl parse_env_ok)
  have h4 := Relation.ReflTransGen.tail h3
    (Step.mSpawnRenewer _ rfl rfl)
  have h5 := Relation.ReflTransGen.tail h4
    (Step.mCheckHaveCert _ cfg_ok rfl rfl parse_env_ok rfl)
  have h6 := Relation.ReflTransGen.tail h5
    (Step.mLogReleaseDone _ rfl rfl)
  have h7 := Relation.ReflTransGen.tail h6
    (Step.rAcquireDone _ rfl rfl rfl)
  have h8 := Relation.ReflTransGen.tail h7
    (Step.mWriteServedB _ rfl rfl)
  have h9 := Relation.ReflTransGen.tail h8
    (Step.mStartNginxB _ rfl rfl)
  have h10 := Relation.ReflTransGen.tail h9
    (Step.rAcquireStart _ rfl rfl rfl)
  exact h10

/-- Witness for C3 at the concrete reachable loop-head state. -/
theorem renewal_gated_by_issuance_and_server_witness :
    (1 ≤ loop_state_0.renewCount →
      loop_state_0.issuanceOpened = true ∧
        loop_state_0.nginxStarted = true) ∧
    (loop_state_0.renewer = some RenPc.acquireStartLock →
      loop_state_0.issuanceOpened = true) ∧
    ((loop_state_0.renewer = some RenPc.invokeRenew ∨
        loop_state_0.renewer = some RenPc.sleeping) →
      loop_state_0.issuanceOpened = true ∧
        loop_state_0.nginxStarted = true) :=
  renewal_gated_by_issuance_and_server sc_renew_fail loop_state_0
    reach_loop_state_0

/-- No transition is enabled once an exit status is set. -/
theorem no_step_after_exit {sc : Scenario} {s t : OState}
    (h : Step sc s t) : s.exited = none := by
  cases h <;> assumption

set_option maxRecDepth 10000 in
/-- C2 (code bug): when the required initial issuance's external command
exits non-zero, the process does *not* terminate.  `obtain_cert` runs on a
worker thread; `fail_with_error_message` logs the exact invocation and
raises `SystemExit`, which the thread machinery swallows, so only the
worker dies while the process (blocked in `Nginx.start`) lives on with no
exit status - in every reachable state of the failing scenario `exited`
is `none`, and the state in which the worker has died with the exact
"Command failed" record is reachable.  Only the message half of the claim
holds. -/
theorem issuance_failure_keeps_process_alive :
    (∀ s, Reachable sc_issue_fail s → s.exited = none) ∧
    (∃ s, Reachable sc_issue_fail s ∧ s.obtainer = some ObPc.failed ∧
      s.errorLog =
        ["Command failed: certbot certonly --domain example.com --email a@example.com --standalone --non-interactive --agree-tos --must-staple --preferred-challenges http-01"] ∧
      s.nginxStarted = true ∧ s.exited = none) := by
  constructor
  · exact exited_none_of_parse_ok cfg_ok parse_env_ok
  · have h0 : Reachable sc_issue_fail initState := Relation.ReflTransGen.refl
    have h1 := Relation.ReflTransGen.tail h0
      (Step.mAcquireStart initState rfl rfl rfl)
    have h2 := Relation.ReflTransGen.tail h1
      (Step.mAcquireDone _ rfl rfl rfl)
    have h3 := Relation.ReflTransGen.tail h2
      (Step.mParseOk _ cfg_ok rfl rfl parse_env_ok)
    have h4 := Relation.ReflTransGen.tail h3
      (Step.mSpawnRenewer _ rfl rfl)
    have h5 := Relation.ReflTransGen.tail h4
      (Step.mCheckNoCert _ cfg_ok rfl rfl parse_env_ok rfl)
    have h6 := Relation.ReflTransGen.tail h5
      (Step.mWriteBootstrap _ rfl rfl)
    have h7 := Relation.ReflTransGen.tail h6
      (Step.mSpawnObtainer _ rfl rfl)
    have h8 := Relation.ReflTransGen.tail h7
      (Step.mStartNginxA _ rfl rfl)
    have h9 := Relation.ReflTransGen.tail h8
      (Step.oAcquireStart _ rfl rfl rfl)
    have h10 := Relation.ReflTransGen.tail h9
      (Step.oRunIssuerFail _ cfg_ok rfl rfl rfl parse_env_ok)
    refine ⟨_, h10, rfl, ?_, rfl, rfl⟩
    show [] ++ [certbot_fail_message cfg_ok] = _
    rw [List.nil_append]
    rw [show certbot_fail_message cfg_ok =
      "Command failed: certbot certonly --domain example.com --email a@example.com --standalone --non-interactive --agree-tos --must-staple --preferred-challenges http-01" from by decide]

/-- Witness for C2 at the initial state. -/
theorem issuance_failure_keeps_process_alive_witness :
    initState.exited = none :=
  issuance_failure_keeps_process_alive.1 initState Relation.ReflTransGen.refl

/-- C6: with `DOMAIN` or `EMAIL` unset or empty, every reachable state has
no renewal thread, no issuance thread, no nginx process, no renewal
attempt and no configuration artifact written; the state with exit status
1 is reachable after the two lock acquisitions and the failed parse, and
from it no further transition is enabled. -/
theorem missing_required_env_exits_before_background :
    ∀ sc : Scenario,
      py_truthy (sc.env "DOMAIN") = false ∨
        py_truthy (sc.env "EMAIL") = false →
      (∀ s, Reachable sc s →
        s.renewer = none ∧ s.obtainer = none ∧ s.nginxStarted = false ∧
        s.renewCount = 0 ∧ s.bootstrapOn = false ∧ s.servedOn = false) ∧
      (∃ s, Reachable sc s ∧ s.exited = some 1 ∧ s.renewer = none ∧
        s.obtainer = none ∧ s.nginxStarted = false ∧
        ∀ t, ¬Step sc s t) := by
  intro sc h
  obtain ⟨msg, hmsg⟩ := (parse_environment_error_iff sc.env).2 h
  constructor
  · intro s hs
    have hb := no_background_of_parse_error msg hmsg s hs
    tauto
  · have h0 : Reachable sc initState := Relation.ReflTransGen.refl
    have h1 := Relation.ReflTransGen.tail h0
      (Step.mAcquireStart initState rfl rfl rfl)
    have h2 := Relation.ReflTransGen.tail h1
      (Step.mAcquireDone _ rfl rfl rfl)
    have h3 := Relation.ReflTransGen.tail h2
      (Step.mParseFail _ msg rfl rfl hmsg)
    refine ⟨_, h3, rfl, rfl, rfl, rfl, ?_⟩
    intro t hstep
    have := no_step_after_exit hstep
    simp_all

/-- Witness for C6 with the empty environment. -/
theorem missing_required_env_exits_before_background_witness :
    initState.renewer = none ∧ initState.obtainer = none ∧
    initState.nginxStarted = false ∧ initState.renewCount = 0 ∧
    initState.bootstrapOn = false ∧ initState.servedOn = false :=
  (missing_required_env_exits_before_background sc_noenv
    (Or.inl rfl)).1 initState Relation.ReflTransGen.refl

/-- In the scenario where every `certbot renew` exits non-zero, the
renewal loop still reaches its n-th cycle for every n: each failure is
logged and followed by the fixed sleep, and the next cycle retries. -/
theorem renew_loop_reach :
    ∀ n : Nat, ∃ s, Reachable sc_renew_fail s ∧
      s.renewer = some RenPc.invokeRenew ∧ s.renewCount = n ∧
      s.errorLog.length = n ∧
      s.sleptSeconds = RENEW_SLEEP_SECONDS * n ∧ s.exited = none := by
  intro n
  induction n with
  | zero =>
    exact ⟨loop_state_0, reach_loop_state_0, rfl, rfl, rfl, rfl, rfl⟩
  | succ n ih =>
    obtain ⟨s, hs, h1, h2, h3, h4, h5⟩ := ih
    have hs1 := Relation.ReflTransGen.tail hs
      (Step.rInvokeFail s h5 h1 rfl)
    have hs2 := Relation.ReflTransGen.tail hs1
      (Step.rSleep _ h5 rfl)
    refine ⟨_, hs2, rfl, ?_, ?_, ?_, h5⟩
    · simp [h2]
    · simp [h3]
    · simp [h4, RENEW_SLEEP_SECONDS]
      ring

/-- C9: a non-zero `certbot renew` exit never ends the renewal loop.  The
loop interval is the fixed 3600 seconds; once the renewer is in its
invoke/sleep loop no transition of any thread takes it out of the loop;
and in the concrete scenario where *every* renewal attempt fails the loop
still reaches its n-th cycle for every n, with n failures logged and
n sleeps of 3600 seconds taken, the process still running. -/
theorem renewal_failures_never_terminate_loop :
    RENEW_SLEEP_SECONDS = 3600 ∧
    (∀ (sc : Scenario) (s t : OState), Reachable sc s → Step sc s t →
      s.renewer = some RenPc.invokeRenew ∨ s.renewer = some RenPc.sleeping →
      t.renewer = some RenPc.invokeRenew ∨
        t.renewer = some RenPc.sleeping) ∧
    (∀ n : Nat, ∃ s, Reachable sc_renew_fail s ∧
      s.renewer = some RenPc.invokeRenew ∧ s.renewCount = n ∧
      s.errorLog.length = n ∧
      s.sleptSeconds = RENEW_SLEEP_SECONDS * n ∧ s.exited = none) := by
  refine ⟨rfl, ?_, renew_loop_reach⟩
  intro sc s t hreach hstep hloop
  have g := gInv_reachable hreach
  have hren := g.renMainPast
  cases hstep <;> simp_all

/-- The state after one failed renewal attempt from `loop_state_0`. -/
def loop_state_after_fail : OState :=
  { loop_state_0 with
      renewCount := loop_state_0.renewCount + 1,
      errorLog := loop_state_0.errorLog ++ [RENEW_FAIL_LOG],
      renewer := some RenPc.sleeping }

/-- Witness for C9's loop-absorption at a concrete reachable state and
step. -/
theorem renewal_failures_never_terminate_loop_witness :
    loop_state_after_fail.renewer = some RenPc.invokeRenew ∨
    loop_state_after_fail.renewer = some RenPc.sleeping :=
  renewal_failures_never_terminate_loop.2.1 sc_renew_fail loop_state_0
    loop_state_after_fail reach_loop_state_0
    (Step.rInvokeFail loop_state_0 rfl rfl rfl) (Or.inl rfl)

/-- The fixed base flag set of the issuance invocation as the spec lists
it: domain, contact email, standalone, non-interactive, agree-tos,
must-staple, and the forced HTTP-01 challenge type. -/
def spec_base_invocation_flags (d e : String) :
    List (String × Option String) :=
  [("--domain", some d), ("--email", some e), ("--standalone", none),
   ("--non-interactive", none), ("--agree-tos", none),
   ("--must-staple", none), ("--preferred-challenges", some "http-01")]

/-- Evaluation of the `self.args` dictionary built by `Certbot.__init__`:
since all keys are distinct, every `add_arg` is an append, and the three
conditional flags appear exactly when their configuration value is
truthy. -/
theorem certbot_args_eval (c : Config) :
    certbot_args c =
      [(("--domain" : String), some c.domain), ("--email", some c.email),
       ("--standalone", none), ("--non-interactive", none),
       ("--agree-tos", none), ("--must-staple", none)] ++
      (if py_truthy c.staging then
        [(("--staging" : String), (none : Option String))] else []) ++
      (if py_truthy c.debug then
        [(("-vvv" : String), some "--text")] else []) ++
      (if py_truthy c.server then
        [(("--server" : String), c.server)] else []) ++
      [(("--preferred-challenges" : String), some "http-01")] := by
  by_cases h1 : py_truthy c.staging <;> by_cases h2 : py_truthy c.debug <;>
    by_cases h3 : py_truthy c.server <;>
      simp [certbot_args, add_arg, h1, h2, h3]

/-- C4: the issuance invocation is `certbot certonly` followed by the
flags; each flag key occurs exactly once (the set is order-independent -
Python dict iteration order does not matter); the flag set is exactly the
seven fixed base flags, plus `--staging` exactly when staging is
configured, plus `-vvv --text` exactly when debug is configured, plus
`--server URL` exactly when an ACME-server override is configured. -/
theorem certbot_invocation_flags :
    ∀ (c : Config) (p : String × Option String),
      ((certbot_cmd c).take 2 = ["certbot", "certonly"]) ∧
      ((certbot_args c).map Prod.fst).Nodup ∧
      (p ∈ certbot_args c ↔
        (p ∈ spec_base_invocation_flags c.domain c.email ∨
         (py_truthy c.staging = true ∧ p = ("--staging", none)) ∨
         (py_truthy c.debug = true ∧ p = ("-vvv", some "--text")) ∨
         (py_truthy c.server = true ∧ p = ("--server", c.server)))) := by
  intro c p
  refine ⟨by simp [certbot_cmd], ?_, ?_⟩
  · rw [certbot_args_eval]
    by_cases h1 : py_truthy c.staging <;> by_cases h2 : py_truthy c.debug <;>
      by_cases h3 : py_truthy c.server <;>
        simp [h1, h2, h3]
  · rw [certbot_args_eval]
    by_cases h1 : py_truthy c.staging <;> by_cases h2 : py_truthy c.debug <;>
      by_cases h3 : py_truthy c.server <;>
        simp [h1, h2, h3, spec_base_invocation_flags] <;> tauto

/-- C10: Python truthiness drives `STAGING` and `DEBUG`: any non-empty
string - including "0" and "false" - enables the behavior, and only an
unset variable or the empty string leaves it disabled.
`parse_environment` stores the raw environment values, the staging flag
and the verbose-trace flags appear in the issuance args exactly when the
stored value is truthy, and `--force-renewal` appears in the renew
invocation exactly when the debug value is truthy. -/
theorem env_flag_truthiness :
    (∀ v : Option String, py_truthy v = true ↔ ∃ s, v = some s ∧ s ≠ "") ∧
    py_truthy (some "0") = true ∧ py_truthy (some "false") = true ∧
    py_truthy none = false ∧ py_truthy (some "") = false ∧
    (∀ (env : String → Option String) (c : Config),
      parse_environment env = .ok c →
      c.staging = env "STAGING" ∧ c.debug = env "DEBUG" ∧
        c.server = env "SERVER") ∧
    (∀ c : Config,
      ((("--staging", (none : Option String)) ∈ certbot_args c) ↔
        py_truthy c.staging = true) ∧
      ((("-vvv", some "--text") ∈ certbot_args c) ↔
        py_truthy c.debug = true) ∧
      (("--force-renewal" ∈ renew_cmd c) ↔ py_truthy c.debug = true)) := by
  refine ⟨?_, by decide, by decide, by decide, by decide, ?_, ?_⟩
  · intro v
    cases v with
    | none => simp [py_truthy]
    | some s =>
      simp [py_truthy]
      rw [Bool.eq_false_iff]
      exact not_congr (String.isEmpty_iff s)
  · intro env c h
    unfold parse_environment at h
    by_cases h1 : py_truthy (env "DOMAIN") = false <;>
      by_cases h2 : py_truthy (env "EMAIL") = false <;> simp_all
    exact ⟨(congrArg Config.staging h.symm).trans rfl,
      (congrArg Config.debug h.symm).trans rfl,
      (congrArg Config.server h.symm).trans rfl⟩
  · intro c
    refine ⟨?_, ?_, ?_⟩
    · simp only [certbot_args_eval]
      by_cases h1 : py_truthy c.staging <;>
        by_cases h2 : py_truthy c.debug <;>
          by_cases h3 : py_truthy c.server <;> simp [h1, h2, h3]
    · simp only [certbot_args_eval]
      by_cases h1 : py_truthy c.staging <;>
        by_cases h2 : py_truthy c.debug <;>
          by_cases h3 : py_truthy c.server <;> simp [h1, h2, h3]
    · by_cases h2 : py_truthy c.debug <;> simp [renew_cmd, h2]

/-- Witness for C10: the parsed concrete environment stores the raw
values. -/
theorem env_flag_truthiness_witness :
    cfg_ok.staging = env_ok "STAGING" ∧ cfg_ok.debug = env_ok "DEBUG" ∧
      cfg_ok.server = env_ok "SERVER" :=
  env_flag_truthiness.2.2.2.2.2.1 env_ok cfg_ok parse_env_ok

/-- C8: `create_nginx_config_file` writes, at the fixed per-domain path,
a served configuration whose three TLS file directives reference exactly
the three fixed certificate paths `<base>/<domain>/fullchain.pem`,
`<base>/<domain>/privkey.pem` and `<base>/<domain>/chain.pem`; and the
written content is a function of the domain and of the presence of the
custom-fragment directory alone, so it is identical no matter how many
bootstrap/served switches (or any other file-system history) preceded the
generation. -/
theorem served_config_references_cert_paths :
    ∀ (fs : FS) (d : String),
      (create_nginx_config_file fs d) (nginx_conf_path d) =
        some (tls_config d (live_dir_path d FULL_CHAIN)
          (live_dir_path d PRIVATE_KEY) (live_dir_path d CHAIN)
          (custom_include fs)) ∧
      (∃ a b, tls_config d (live_dir_path d FULL_CHAIN)
          (live_dir_path d PRIVATE_KEY) (live_dir_path d CHAIN)
          (custom_include fs) =
        a ++ ("ssl_certificate " ++ live_dir_path d FULL_CHAIN ++ ";")
          ++ b) ∧
      (∃ a b, tls_config d (live_dir_path d FULL_CHAIN)
          (live_dir_path d PRIVATE_KEY) (live_dir_path d CHAIN)
          (custom_include fs) =
        a ++ ("ssl_certificate_key " ++ live_dir_path d PRIVATE_KEY ++ ";")
          ++ b) ∧
      (∃ a b, tls_config d (live_dir_path d FULL_CHAIN)
          (live_dir_path d PRIVATE_KEY) (live_dir_path d CHAIN)
          (custom_include fs) =
        a ++ ("ssl_trusted_certificate " ++ live_dir_path d CHAIN ++ ";")
          ++ b) ∧
      (∀ fs1 fs2 : FS,
        os_path_exists fs1 custom_dir_path =
          os_path_exists fs2 custom_dir_path →
        (create_nginx_config_file fs1 d) (nginx_conf_path d) =
          (create_nginx_config_file fs2 d) (nginx_conf_path d)) := by
  intro fs d
  refine ⟨by simp [create_nginx_config_file], ?_, ?_, ?_, ?_⟩
  · refine ⟨TLS_SEG0 ++ d ++ TLS_SEG1,
      "\n    " ++ "ssl_certificate_key " ++ live_dir_path d PRIVATE_KEY ++
        ";" ++ "\n    " ++ "ssl_trusted_certificate " ++
        live_dir_path d CHAIN ++ ";" ++ TLS_SEG2 ++ custom_include fs ++
        TLS_SEG3, ?_⟩
    simp only [tls_config, String.append_assoc]
  · refine ⟨TLS_SEG0 ++ d ++ TLS_SEG1 ++ "ssl_certificate " ++
      live_dir_path d FULL_CHAIN ++ ";" ++ "\n    ",
      "\n    " ++ "ssl_trusted_certificate " ++ live_dir_path d CHAIN ++
        ";" ++ TLS_SEG2 ++ custom_include fs ++ TLS_SEG3, ?_⟩
    simp only [tls_config, String.append_assoc]
  · refine ⟨TLS_SEG0 ++ d ++ TLS_SEG1 ++ "ssl_certificate " ++
      live_dir_path d FULL_CHAIN ++ ";" ++ "\n    " ++
      "ssl_certificate_key " ++ live_dir_path d PRIVATE_KEY ++ ";" ++
      "\n    ", TLS_SEG2 ++ custom_include fs ++ TLS_SEG3, ?_⟩
    simp only [tls_config, String.append_assoc]
  · intro fs1 fs2 h
    simp only [os_path_exists] at h
    simp [create_nginx_config_file, custom_include, os_path_exists, h]

/-- Witness for C8: the content generated for `example.com` is identical
over the empty file system and over the file system already holding the
certificate artifact (different histories, same custom-directory
status). -/
theorem served_config_references_cert_paths_witness :
    (create_nginx_config_file fs_empty "example.com")
        (nginx_conf_path "example.com") =
      (create_nginx_config_file fs_cert "example.com")
        (nginx_conf_path "example.com") :=
  (served_config_references_cert_paths fs_empty "example.com").2.2.2.2
    fs_empty fs_cert rfl

/-- Witness for the amended C1 at concrete inputs. -/
theorem certs_exist_amended_witness :
    certs_exist fs_empty "example.com" =
      !(spec_certificate_state_exists fs_empty "example.com") ∧
    certs_exist fs_cert "example.com" =
      !(spec_certificate_state_exists fs_cert "example.com") :=
  ⟨(certs_exist_amended fs_empty "example.com").1,
   (certs_exist_amended fs_cert "example.com").1⟩

/-- Witness for C4 at the concrete configuration. -/
theorem certbot_invocation_flags_witness :
    (certbot_cmd cfg_ok).take 2 = ["certbot", "certonly"] ∧
    (("--domain", some "example.com") ∈ certbot_args cfg_ok ↔
      (("--domain", some "example.com") ∈
          spec_base_invocation_flags cfg_ok.domain cfg_ok.email ∨
        (py_truthy cfg_ok.staging = true ∧
          ("--domain", some "example.com") = ("--staging", none)) ∨
        (py_truthy cfg_ok.debug = true ∧
          ("--domain", some "example.com") = ("-vvv", some "--text")) ∨
        (py_truthy cfg_ok.server = true ∧
          ("--domain", some "example.com") = ("--server", cfg_ok.server)))) :=
  ⟨(certbot_invocation_flags cfg_ok ("--domain", some "example.com")).1,
   (certbot_invocation_flags cfg_ok ("--domain", some "example.com")).2.2⟩

/-- Witness for C7 at a concrete file system. -/
theorem proxy_config_write_remove_idempotent_witness :
    (write_proxy_config fs_cert) nginx_config_path = some PROXY_CONFIG ∧
    write_proxy_config (write_proxy_config fs_cert) =
      write_proxy_config fs_cert :=
  ⟨(proxy_config_write_remove_idempotent fs_cert).1,
   (proxy_config_write_remove_idempotent fs_cert).2.1⟩
